import Mathlib

/-!
Verification of the accessory state synchronization engine of the
homebridge-indigo platform shim, as a shallow embedding in Lean 4.

All definitions are translated from the JavaScript source (the latest
variant of the plugin, which defines IndigoPlatform, IndigoAccessory and
its subclasses).  JavaScript numbers are modelled as rationals, JSON
property values as a small inductive type, and the stateful request /
callback structure as explicit data (lists of issued requests, Option
and Except results for callbacks).
-/

namespace Indigo

/-- A JSON-ish property value as stored in an accessory's property cache
(the dynamic fields copied from the Indigo RESTful API responses). -/
inductive JVal
  | b : Bool → JVal
  | n : ℚ → JVal
  | s : String → JVal
  deriving DecidableEq, Repr

/-- JavaScript truthiness of a cached property value: false, 0 and the
empty string are falsy; everything else is truthy. -/
def jsTruthy : JVal → Bool
  | JVal.b v => v
  | JVal.n v => v != 0
  | JVal.s v => v != ""

/-- A property cache / parsed JSON object: an ordered association list
from remote-side property names to values (JS object insertion order). -/
abbrev Cache := List (String × JVal)

/-- Lookup of a property on an object (undefined when absent). -/
def getProp (c : Cache) (p : String) : Option JVal :=
  match c.find? (fun kv => kv.1 == p) with
  | some kv => some kv.2
  | none => none

/-- Assignment of a property on an object (overwrites in place or
appends a new field). -/
def setProp (c : Cache) (p : String) (v : JVal) : Cache :=
  match c with
  | [] => [(p, v)]
  | kv :: rest =>
      if kv.1 == p then (p, v) :: rest else kv :: setProp rest p v

/-! ## The jsonFixer pre-parse repair step

From IndigoPlatform.prototype.discoverAccessories:

    var firstComma = body.indexOf(",");
    if (firstComma > 0 && firstComma < 5) {
        body = body.substr(0, firstComma) + body.substr(firstComma + 1);
    }
    return (body);

The body is modelled as a list of characters; String.prototype.indexOf
returns -1 when the character does not occur. -/

/-- Index of the first comma of the body, or -1 when there is none
(JavaScript String.prototype.indexOf semantics). -/
def firstCommaIdx (body : List Char) : Int :=
  match body.findIdx? (fun ch => ch == ',') with
  | some i => (i : Int)
  | none => -1

/-- The pre-parse repair step applied to every listing-response body:
remove the first comma when its index lies strictly between 0 and 5. -/
def jsonFixer (body : List Char) : List Char :=
  let firstComma := firstCommaIdx body
  if 0 < firstComma ∧ firstComma < 5 then
    body.take firstComma.toNat ++ body.drop (firstComma.toNat + 1)
  else
    body

/-- A miniature JSON parser for comma-separated lists of natural-number
literals terminated by a closing bracket, enough to compare the parse
results of listing bodies in counterexamples.  Returns none when the
body is not of that well-formed shape. -/
def parseNatListAux (fuel : Nat) (cur : Option Nat) (acc : List Nat) :
    List Char → Option (List Nat)
  | [] => none
  | ch :: rest =>
      match fuel with
      | 0 => none
      | fuel + 1 =>
        if ch == ']' then
          match cur, rest with
          | some v, [] => some (acc ++ [v])
          | none, [] => if acc.isEmpty then some [] else none
          | _, _ => none
        else if ch == ',' then
          match cur with
          | some v => parseNatListAux fuel none (acc ++ [v]) rest
          | none => none
        else if ch.isDigit then
          parseNatListAux fuel (some ((cur.getD 0) * 10 + (ch.toNat - 48))) acc rest
        else none

/-- Parse a body of the form [n1,n2,...] into its list of numbers. -/
def parseNatList : List Char → Option (List Nat)
  | '[' :: rest => parseNatListAux rest.length none [] rest
  | _ => none

end Indigo

namespace Indigo

/-! ## Identifier-based include / exclude filtering

From IndigoPlatform.prototype.includeItemId:

    if (this.includeIds && (this.includeIds.indexOf(String(id)) < 0)) {
        return false;
    }
    if (this.excludeIds && (this.excludeIds.indexOf(String(id)) >= 0)) {
        return false;
    }
    return true;

An absent configuration list is modelled as none (the only falsy value
the config can produce for these fields other than absence). -/

/-- Decides whether a discovered item id is kept, given the optional
includeIds and excludeIds configuration lists. -/
def includeItemId (includeIds excludeIds : Option (List String)) (id : String) :
    Bool :=
  match includeIds with
  | some inc =>
      if inc.contains id = false then false
      else
        match excludeIds with
        | some exc => if exc.contains id then false else true
        | none => true
  | none =>
      match excludeIds with
      | some exc => if exc.contains id then false else true
      | none => true

/-! ## Requests to the Indigo RESTful API -/

/-- HTTP verb of an outbound request (EXECUTE is the special verb used
for action groups). -/
inductive Verb
  | GET
  | PUT
  | EXECUTE
  deriving DecidableEq, Repr

/-- An outbound request: verb, device/listing URL, query parameters. -/
structure Req where
  verb : Verb
  url : String
  qs : Cache
  deriving DecidableEq, Repr

/-- Requests issued by IndigoAccessory.prototype.updateStatus: a PUT
with the query parameters, followed (on success) by the getStatus GET
that re-fetches the device state. -/
def updateStatusReqs (url : String) (qs : Cache) : List Req :=
  [Req.mk Verb.PUT url qs, Req.mk Verb.GET url []]

/-! ## Fan rotation speed quantization

From IndigoFanAccessory.prototype.setRotationSpeed and
getRotationSpeed.  JavaScript numbers are modelled as rationals. -/

/-- The discrete speed index written by setRotationSpeed for a given
rotation-speed percentage. -/
def speedIndexOf (rotationSpeed : ℚ) : ℚ :=
  if rotationSpeed > 66.6 then 3
  else if rotationSpeed > 33.3 then 2
  else if rotationSpeed > 0 then 1
  else 0

/-- The percentage reported by getRotationSpeed for a cached speed
index: (speedIndex / 3.0) * 100.0. -/
def rotationSpeedOf (speedIndex : ℚ) : ℚ :=
  speedIndex / 3 * 100

/-- Round trip: what getRotationSpeed reports after setRotationSpeed p
succeeded (the device stores exactly the written index). -/
def fanRoundTrip (p : ℚ) : ℚ :=
  rotationSpeedOf (speedIndexOf p)

/-! ## Thermostat temperature conversion

From IndigoThermostatAccessory.prototype.celsiusToIndigoTemp and
indigoTempToCelsius.  Math.round rounds half toward positive infinity,
i.e. Math.round(x) = floor(x + 1/2). -/

/-- JavaScript Math.round. -/
def jsRound (x : ℚ) : ℤ :=
  ⌊x + 1 / 2⌋

/-- Convert a HomeKit Celsius temperature to the device's native unit:
identity when thermostatsInCelsius, else round10((C * 9/5) + 32). -/
def celsiusToIndigoTemp (thermostatsInCelsius : Bool) (temperature : ℚ) : ℚ :=
  if thermostatsInCelsius then temperature
  else (jsRound ((temperature * 9 / 5 + 32) * 10) : ℚ) / 10

/-- Convert a native-unit temperature to HomeKit Celsius: identity when
thermostatsInCelsius, else round10((F - 32) * 5/9). -/
def indigoTempToCelsius (thermostatsInCelsius : Bool) (temperature : ℚ) : ℚ :=
  if thermostatsInCelsius then temperature
  else (jsRound ((temperature - 32) * 5 / 9 * 10) : ℚ) / 10

/-! ## Thermostat target-temperature write

From IndigoThermostatAccessory.prototype.setTargetTemperature: after a
getStatus refresh, choose the query parameters from the operating-mode
flags of the freshly fetched state. -/

/-- The thermostat state consulted by setTargetTemperature after its
getStatus call. -/
structure ThermoState where
  thermostatsInCelsius : Bool
  hvacOperationModeIsHeat : Bool
  hvacOperationModeIsCool : Bool
  deriving DecidableEq, Repr

/-- Query parameters of the single PUT issued by setTargetTemperature
for a requested Celsius temperature. -/
def setTargetTemperatureQS (st : ThermoState) (temperature : ℚ) : Cache :=
  let t := celsiusToIndigoTemp st.thermostatsInCelsius temperature
  if st.hvacOperationModeIsHeat then
    [("setpointHeat", JVal.n t)]
  else if st.hvacOperationModeIsCool then
    [("setpointCool", JVal.n t)]
  else
    let adjust : ℚ := if st.thermostatsInCelsius then 2 else 5
    [("setpointCool", JVal.n (t + adjust)), ("setpointHeat", JVal.n (t - adjust))]

/-- All requests issued by setTargetTemperature: the getStatus GET, then
the updateStatus PUT (and its trailing getStatus GET). -/
def setTargetTemperatureAllReqs (url : String) (st : ThermoState) (temperature : ℚ) :
    List Req :=
  Req.mk Verb.GET url [] :: updateStatusReqs url (setTargetTemperatureQS st temperature)

/-! ## Discovery result: sort and 99-accessory bound

From IndigoPlatform.prototype.accessories: when more than 99
accessories were discovered, this.foundAccessories is replaced by its
slice(0, 99) (discovery order) and a warning block runs once; the
callback then receives the list sorted by accessory name with the
comparator (a.name > b.name) - (a.name < b.name).  Accessories are
modelled by their display names. -/

/-- Lexical sort by display name (the JS sort comparator orders
ascending by name). -/
def jsSortNames (l : List String) : List String :=
  List.insertionSort (fun a b => a ≤ b) l

/-- Outcome of the accessories callback: the returned list and how many
times the over-limit warning block ran. -/
structure DiscoveryOutcome where
  accessories : List String
  warnings : Nat
  deriving DecidableEq, Repr

/-- The accessories callback: truncate to the first 99 discovered when
over the limit (warning once), then sort by name. -/
def accessoriesCallback (foundAccessories : List String) : DiscoveryOutcome :=
  if foundAccessories.length > 99 then
    { accessories := jsSortNames (foundAccessories.take 99), warnings := 1 }
  else
    { accessories := jsSortNames foundAccessories, warnings := 0 }

/-! ## Property cache update

From IndigoAccessory.prototype.updateFromJSON: every property of the
parsed response other than "name" is compared (JS loose equality)
against the cached value and assigned when different; the per-field
update callback fires exactly for the assigned properties. -/

/-- JavaScript loose equality on cached values, restricted to the value
shapes the Indigo API produces: same-type comparison is structural, a
boolean compared with a number is coerced to 0/1.  A string compared
with a value of another type is treated as unequal (such mixed
comparisons do not arise: a given JSON field keeps one type across
fetches of the same endpoint). -/
def jsLooseEq : JVal → JVal → Bool
  | JVal.b x, JVal.b y => x == y
  | JVal.n x, JVal.n y => x == y
  | JVal.s x, JVal.s y => x == y
  | JVal.b x, JVal.n y => (if x then (1 : ℚ) else 0) == y
  | JVal.n x, JVal.b y => x == (if y then (1 : ℚ) else 0)
  | _, _ => false

/-- Whether updateFromJSON assigns property p with new value v over the
current cache (true when the cached value is absent or loosely unequal;
the "name" property is excluded by the caller's loop). -/
def propChanged (cache : Cache) (p : String) (v : JVal) : Bool :=
  match getProp cache p with
  | none => true
  | some old => !(jsLooseEq v old)

/-- The cache after updateFromJSON applies a parsed response, ignoring
the separately handled "name" property (assignments happen in response
order, each visible to later comparisons). -/
def updateCacheFromJSON (cache : Cache) : Cache → Cache
  | [] => cache
  | (p, v) :: rest =>
      if p ≠ "name" ∧ propChanged cache p v then
        updateCacheFromJSON (setProp cache p v) rest
      else
        updateCacheFromJSON cache rest

/-! ## Push reconciliation endpoint

From IndigoPlatform.prototype.updateAccessory and
IndigoAccessory.prototype.getStatus: 404 when the id is not in the
accessory map; otherwise refresh, which on fetch error invokes the
callback with the error without touching the cache (500), and on
success replaces the cache from the response (200). -/

/-- Lookup in the identifier-keyed accessory map. -/
def mapGet (m : List (String × Cache)) (k : String) : Option Cache :=
  match m.find? (fun kv => kv.1 == k) with
  | some kv => some kv.2
  | none => none

/-- Replace the cache stored for an identifier in the accessory map. -/
def mapSet (m : List (String × Cache)) (k : String) (c : Cache) :
    List (String × Cache) :=
  match m with
  | [] => [(k, c)]
  | kv :: rest => if kv.1 == k then (k, c) :: rest else kv :: mapSet rest k c

/-- The cache outcome of a refresh: the fetch result is either an error
(cache untouched by getStatus) or a parsed response merged into the
cache by updateFromJSON. -/
def refreshCacheResult (cache : Cache) (fetch : Except String Cache) :
    Except String Cache :=
  match fetch with
  | Except.error e => Except.error e
  | Except.ok json => Except.ok (updateCacheFromJSON cache json)

/-- The /devices/:id listener: HTTP status code sent and the resulting
accessory map, given the outcome of the status fetch the refresh would
perform. -/
def updateAccessoryHandler (accessoryMap : List (String × Cache)) (id : String)
    (fetch : Except String Cache) : Nat × List (String × Cache) :=
  match mapGet accessoryMap id with
  | none => (404, accessoryMap)
  | some cache =>
      match refreshCacheResult cache fetch with
      | Except.error _ => (500, accessoryMap)
      | Except.ok c2 => (200, mapSet accessoryMap id c2)

/-! ## Accessory variants, characteristics, and set-handler dispatch

The subclasses of IndigoAccessory and the HomeKit characteristics on
which they register handlers.  Calling setValue(value, callback,
context) on a characteristic invokes its registered set handler, if
any, with that context; IndigoAccessory.REFRESH_CONTEXT marks mirror
writes. -/

/-- The accessory subclass constructed by createAccessoryFromJSON. -/
inductive Variant
  | vSwitch
  | vLock
  | vDoor
  | vWindow
  | vWindowCovering
  | vGarageDoor
  | vLight
  | vFan
  | vThermostat
  | vAction
  deriving DecidableEq, Repr

/-- The HomeKit characteristics touched by this plugin. -/
inductive HK
  | hkOn
  | lockCurrentState
  | lockTargetState
  | currentPosition
  | targetPosition
  | currentDoorState
  | targetDoorState
  | brightness
  | rotationSpeed
  | targetHeatingCooling
  | targetTemperature
  | temperatureDisplayUnits
  | coolingThreshold
  | heatingThreshold
  deriving DecidableEq, Repr

/-- The context argument threaded through characteristic writes. -/
inductive Ctx
  | user
  | refreshCtx
  deriving DecidableEq, Repr

/-- A characteristic setValue call: the mirror writes issued by the
update_KEY functions all carry Ctx.refreshCtx. -/
structure SetValueEvent where
  char : HK
  value : JVal
  ctx : Ctx
  deriving DecidableEq, Repr

/-- Device capability flags (immutable after construction). -/
structure Caps where
  typeSupportsOnOff : Bool
  typeSupportsDim : Bool
  typeSupportsSpeedControl : Bool
  typeSupportsHVAC : Bool
  deriving DecidableEq, Repr

/-- The per-accessory data the set handlers consult: device URL,
capability flags, the thermostat unit flag, and the operating-mode
flags as of the most recent status fetch. -/
structure Device where
  url : String
  caps : Caps
  thermostatsInCelsius : Bool
  hvacOperationModeIsHeat : Bool
  hvacOperationModeIsCool : Bool
  deriving DecidableEq, Repr

/-- Numeric view of a characteristic value (booleans coerce to 0/1;
strings do not occur as numeric characteristic values). -/
def toNum : JVal → ℚ
  | JVal.n v => v
  | JVal.b v => if v then 1 else 0
  | JVal.s _ => 0

/-- Requests issued by IndigoAccessory.prototype.setOnState. -/
def setOnStateReqs (d : Device) (v : JVal) (ctx : Ctx) : List Req :=
  if ctx == Ctx.refreshCtx then []
  else if d.caps.typeSupportsOnOff then
    updateStatusReqs d.url [("isOn", JVal.n (if jsTruthy v then 1 else 0))]
  else []

/-- Requests issued by IndigoLockAccessory.prototype.setLockTargetState
(LockTargetState.SECURED = 1). -/
def setLockTargetStateReqs (d : Device) (v : JVal) (ctx : Ctx) : List Req :=
  if ctx == Ctx.refreshCtx then []
  else if d.caps.typeSupportsOnOff then
    updateStatusReqs d.url [("isOn", JVal.n (if toNum v == 1 then 1 else 0))]
  else []

/-- Requests issued by
IndigoPositionAccessory.prototype.setTargetPosition. -/
def setTargetPositionReqs (d : Device) (v : JVal) (ctx : Ctx) : List Req :=
  if ctx == Ctx.refreshCtx then []
  else if d.caps.typeSupportsOnOff || d.caps.typeSupportsDim then
    if d.caps.typeSupportsDim then
      updateStatusReqs d.url [("brightness", v)]
    else
      updateStatusReqs d.url [("isOn", JVal.n (if toNum v > 0 then 1 else 0))]
  else []

/-- Requests issued by
IndigoGarageDoorAccessory.prototype.setTargetDoorState
(TargetDoorState.OPEN = 0). -/
def setTargetDoorStateReqs (d : Device) (v : JVal) (ctx : Ctx) : List Req :=
  if ctx == Ctx.refreshCtx then []
  else if d.caps.typeSupportsOnOff then
    updateStatusReqs d.url [("isOn", JVal.n (if toNum v == 0 then 1 else 0))]
  else []

/-- Requests issued by IndigoLightAccessory.prototype.setBrightness. -/
def setBrightnessReqs (d : Device) (v : JVal) (ctx : Ctx) : List Req :=
  if ctx == Ctx.refreshCtx then []
  else if d.caps.typeSupportsDim && decide (0 ≤ toNum v) && decide (toNum v ≤ 100) then
    updateStatusReqs d.url [("brightness", v)]
  else []

/-- Requests issued by IndigoFanAccessory.prototype.setRotationSpeed;
note the source takes no context parameter here. -/
def setRotationSpeedReqs (d : Device) (v : JVal) : List Req :=
  if d.caps.typeSupportsSpeedControl && decide (0 ≤ toNum v) && decide (toNum v ≤ 100) then
    updateStatusReqs d.url [("speedIndex", JVal.n (speedIndexOf (toNum v)))]
  else []

/-- Requests issued by
IndigoThermostatAccessory.prototype.setTargetHeatingCooling (no context
parameter in the source; TargetHeatingCoolingState OFF/HEAT/COOL/AUTO
are 0/1/2/3). -/
def setTargetHeatingCoolingReqs (d : Device) (v : JVal) : List Req :=
  let m := toNum v
  if m == 0 then updateStatusReqs d.url [("hvacOperationModeIsOff", JVal.s "true")]
  else if m == 1 then updateStatusReqs d.url [("hvacOperationModeIsHeat", JVal.s "true")]
  else if m == 2 then updateStatusReqs d.url [("hvacOperationModeIsCool", JVal.s "true")]
  else if m == 3 then updateStatusReqs d.url [("hvacOperationModeIsAuto", JVal.s "true")]
  else []

/-- Requests issued by
IndigoThermostatAccessory.prototype.setTemperatureValue (no context
parameter in the source). -/
def setTemperatureValueReqs (d : Device) (key : String) (v : JVal) : List Req :=
  updateStatusReqs d.url [(key, JVal.n (celsiusToIndigoTemp d.thermostatsInCelsius (toNum v)))]

/-- Requests issued by
IndigoThermostatAccessory.prototype.setTargetTemperature (no context
parameter in the source). -/
def setTargetTemperatureDeviceReqs (d : Device) (v : JVal) : List Req :=
  setTargetTemperatureAllReqs d.url
    (ThermoState.mk d.thermostatsInCelsius d.hvacOperationModeIsHeat d.hvacOperationModeIsCool)
    (toNum v)

/-- Requests issued by IndigoActionAccessory.prototype.executeAction. -/
def executeActionReqs (d : Device) (v : JVal) (ctx : Ctx) : List Req :=
  if jsTruthy v && ctx != Ctx.refreshCtx then [Req.mk Verb.EXECUTE d.url []]
  else []

/-- The set handler registered on a characteristic by each accessory
subclass constructor, as the requests it issues (characteristics with
no registered set handler issue nothing).  Brightness on a light is
registered only when the device supports dimming. -/
def setHandlerReqs (d : Device) (vr : Variant) (char : HK) (v : JVal) (ctx : Ctx) :
    List Req :=
  match vr, char with
  | Variant.vSwitch, HK.hkOn => setOnStateReqs d v ctx
  | Variant.vLock, HK.lockTargetState => setLockTargetStateReqs d v ctx
  | Variant.vDoor, HK.targetPosition => setTargetPositionReqs d v ctx
  | Variant.vWindow, HK.targetPosition => setTargetPositionReqs d v ctx
  | Variant.vWindowCovering, HK.targetPosition => setTargetPositionReqs d v ctx
  | Variant.vGarageDoor, HK.targetDoorState => setTargetDoorStateReqs d v ctx
  | Variant.vLight, HK.hkOn => setOnStateReqs d v ctx
  | Variant.vLight, HK.brightness =>
      if d.caps.typeSupportsDim then setBrightnessReqs d v ctx else []
  | Variant.vFan, HK.hkOn => setOnStateReqs d v ctx
  | Variant.vFan, HK.rotationSpeed => setRotationSpeedReqs d v
  | Variant.vThermostat, HK.targetHeatingCooling => setTargetHeatingCoolingReqs d v
  | Variant.vThermostat, HK.targetTemperature => setTargetTemperatureDeviceReqs d v
  | Variant.vThermostat, HK.coolingThreshold => setTemperatureValueReqs d "setpointCool" v
  | Variant.vThermostat, HK.heatingThreshold => setTemperatureValueReqs d "setpointHeat" v
  | Variant.vThermostat, HK.temperatureDisplayUnits => []
  | Variant.vAction, HK.hkOn => executeActionReqs d v ctx
  | _, _ => []

/-- Whether an accessory subclass defines an update_KEY mirror function
for a given property (refresh checks this[updateFunction] before
invoking it; properties without one are safely ignored). -/
def updateFnExists (vr : Variant) (p : String) : Bool :=
  match vr with
  | Variant.vSwitch => p == "isOn"
  | Variant.vLock => p == "isOn"
  | Variant.vDoor | Variant.vWindow | Variant.vWindowCovering =>
      p == "isOn" || p == "brightness"
  | Variant.vGarageDoor => p == "isOn"
  | Variant.vLight => p == "isOn" || p == "brightness"
  | Variant.vFan => false
  | Variant.vThermostat => false
  | Variant.vAction => false

/-- The setValue calls the update_KEY mirror function of each accessory
subclass makes for a changed property (empty when the subclass has no
such function, and for update_isOn of a dimming-capable position
accessory, whose body is guarded by !typeSupportsDim).  Every call
carries IndigoAccessory.REFRESH_CONTEXT.  HomeKit constants:
LockCurrentState/LockTargetState UNSECURED = 0 SECURED = 1,
CurrentDoorState/TargetDoorState OPEN = 0 CLOSED = 1. -/
def updateFnEvents (vr : Variant) (caps : Caps) (p : String) (v : JVal) :
    List SetValueEvent :=
  match vr with
  | Variant.vSwitch =>
      if p == "isOn" then
        [SetValueEvent.mk HK.hkOn (JVal.b (jsTruthy v)) Ctx.refreshCtx]
      else []
  | Variant.vLock =>
      if p == "isOn" then
        [SetValueEvent.mk HK.lockCurrentState (JVal.n (if jsTruthy v then 1 else 0)) Ctx.refreshCtx,
         SetValueEvent.mk HK.lockTargetState (JVal.n (if jsTruthy v then 1 else 0)) Ctx.refreshCtx]
      else []
  | Variant.vDoor | Variant.vWindow | Variant.vWindowCovering =>
      if p == "isOn" then
        if caps.typeSupportsDim then []
        else
          [SetValueEvent.mk HK.currentPosition (JVal.n (if jsTruthy v then 100 else 0)) Ctx.refreshCtx,
           SetValueEvent.mk HK.targetPosition (JVal.n (if jsTruthy v then 100 else 0)) Ctx.refreshCtx]
      else if p == "brightness" then
        [SetValueEvent.mk HK.currentPosition v Ctx.refreshCtx,
         SetValueEvent.mk HK.targetPosition v Ctx.refreshCtx]
      else []
  | Variant.vGarageDoor =>
      if p == "isOn" then
        [SetValueEvent.mk HK.currentDoorState (JVal.n (if jsTruthy v then 0 else 1)) Ctx.refreshCtx,
         SetValueEvent.mk HK.targetDoorState (JVal.n (if jsTruthy v then 0 else 1)) Ctx.refreshCtx]
      else []
  | Variant.vLight =>
      if p == "isOn" then
        [SetValueEvent.mk HK.hkOn (JVal.b (jsTruthy v)) Ctx.refreshCtx]
      else if p == "brightness" then
        [SetValueEvent.mk HK.brightness v Ctx.refreshCtx]
      else []
  | Variant.vFan => []
  | Variant.vThermostat => []
  | Variant.vAction => []

/-- The per-property loop of updateFromJSON as run under refresh:
returns the updated cache, the list of per-property mirror-function
invocations (changed properties whose subclass has an update_KEY
function), and the setValue events those invocations make, in order. -/
def refreshLoop (vr : Variant) (caps : Caps) :
    Cache → Cache → Cache × List String × List SetValueEvent
  | cache, [] => (cache, [], [])
  | cache, (p, v) :: rest =>
      if p ≠ "name" ∧ propChanged cache p v then
        let res := refreshLoop vr caps (setProp cache p v) rest
        (res.1,
         (if updateFnExists vr p then [p] else []) ++ res.2.1,
         updateFnEvents vr caps p v ++ res.2.2)
      else
        refreshLoop vr caps cache rest

/-- The setValue events a refresh delivers, given the cached state and
the freshly fetched response. -/
def refreshEvents (vr : Variant) (caps : Caps) (cache json : Cache) :
    List SetValueEvent :=
  (refreshLoop vr caps cache json).2.2

/-- The per-property mirror-function invocations a refresh makes. -/
def refreshMirrorCalls (vr : Variant) (caps : Caps) (cache json : Cache) :
    List String :=
  (refreshLoop vr caps cache json).2.1

/-- All requests the set handlers issue in response to the mirror
writes of one refresh. -/
def refreshOutbound (d : Device) (vr : Variant) (cache json : Cache) : List Req :=
  (refreshEvents vr d.caps cache json).foldr
    (fun e acc => setHandlerReqs d vr e.char e.value e.ctx ++ acc) []

/-- Whether a request is an outbound write (PUT or EXECUTE). -/
def isWrite (r : Req) : Bool :=
  r.verb == Verb.PUT || r.verb == Verb.EXECUTE

/-! ## Trait callbacks for unsupported operations

From IndigoAccessory.prototype.getOnState and setOnState.  A callback
outcome of none means the handler returned without ever invoking its
callback. -/

/-- The callback invocation made by getOnState, given the cached state
and the outcome of the getStatus fetch: none when the device does not
support on/off (the source has no else branch there). -/
def getOnStateCb (caps : Caps) (cache : Cache) (fetch : Except String Cache) :
    Option (Except String Bool) :=
  if caps.typeSupportsOnOff then
    some (match fetch with
      | Except.error e => Except.error e
      | Except.ok json =>
          Except.ok (match getProp (updateCacheFromJSON cache json) "isOn" with
            | some v => jsTruthy v
            | none => false))
  else none

/-- The callback invocation made by setOnState: immediate success under
the refresh context, the updateStatus outcome when on/off is supported,
and an explicit error otherwise. -/
def setOnStateCb (caps : Caps) (ctx : Ctx) (updateResult : Except String Unit) :
    Except String Unit :=
  if ctx == Ctx.refreshCtx then Except.ok ()
  else if caps.typeSupportsOnOff then updateResult
  else Except.error "Accessory does not support on/off"

/-! ## The serialized request queue

From the IndigoPlatform constructor: this.requestQueue =
async.queue(worker) with the concurrency argument omitted, and the
async library defaults an omitted concurrency to 1.  Every outbound
request (indigoRequest, hence discovery, updateStatus, getStatus and
executeAction) is submitted with this.requestQueue.push.  The queue is
modelled as a state machine over pending (submitted, not started),
running (in flight) and done (completed) requests; a task may start
only while fewer than the concurrency limit are in flight, and tasks
start from the front of the pending list. -/

/-- Concurrency of the platform request queue: async.queue with the
concurrency argument omitted defaults to 1. -/
def requestQueueConcurrency : Nat := 1

/-- State of the request queue. -/
structure QState where
  pending : List Req
  running : List Req
  done : List Req
  deriving DecidableEq, Repr

/-- The initial, empty queue. -/
def QState.init : QState := QState.mk [] [] []

/-- One transition of the request queue with concurrency limit c:
submitting a request appends it to pending; a worker may start the
front pending request while fewer than c are running; any running
request may complete. -/
inductive QStep (c : Nat) : QState → QState → Prop
  | push (r : Req) (p run d : List Req) :
      QStep c (QState.mk p run d) (QState.mk (p ++ [r]) run d)
  | start (r : Req) (p run d : List Req) :
      run.length < c →
      QStep c (QState.mk (r :: p) run d) (QState.mk p (run ++ [r]) d)
  | finish (r : Req) (p pre post d : List Req) :
      QStep c (QState.mk p (pre ++ r :: post) d)
              (QState.mk p (pre ++ post) (d ++ [r]))

/-- Queue states reachable from the empty queue. -/
def QReach (c : Nat) (s : QState) : Prop :=
  Relation.ReflTransGen (QStep c) QState.init s

/-- The total submission-ordered view of a queue state: completed, then
in flight, then pending. -/
def qOrder (s : QState) : List Req :=
  s.done ++ s.running ++ s.pending

/-! # Theorems -/

/-- C7: a discovered item id is kept iff (there is no include-list or
the id is in it) and the id is not in the exclude-list; with
include-list and exclude-list both set to the single id "10", every id
is rejected, so discovery yields an empty accessory set. -/
theorem includeItemId_correct :
    (∀ (inc exc : Option (List String)) (id : String),
        includeItemId inc exc id = true ↔
          ((inc = none ∨ ∃ l, inc = some l ∧ id ∈ l)
            ∧ ¬ ∃ l, exc = some l ∧ id ∈ l))
    ∧ (∀ id : String, includeItemId (some ["10"]) (some ["10"]) id = false) := by
  constructor
  · intro inc exc id
    cases inc <;> cases exc <;> simp [includeItemId, List.contains]
  · intro id
    by_cases h : id = "10"
    · subst h; simp [includeItemId]
    · simp [includeItemId, h]

/-- C7 witness: the theorem instantiated at a concrete id. -/
theorem includeItemId_correct_witness :
    includeItemId (some ["10"]) (some ["10"]) "10" = false :=
  includeItemId_correct.2 "10"

/-- C2 counterexample: the repair does alter well-formed responses (the
first comma of [1,2] lies at index 2, so it is stripped, changing the
parse from [1,2] to [12]); and a body literally beginning with a comma
(index 0) is not repaired at all, so it does not parse identically to
the bracketed well-formed response. -/
theorem jsonFixer_counterexample :
    jsonFixer ['[', '1', ',', '2', ']'] = ['[', '1', '2', ']']
    ∧ parseNatList ['[', '1', ',', '2', ']'] = some [1, 2]
    ∧ parseNatList ['[', '1', '2', ']'] = some [12]
    ∧ jsonFixer [',', '1', ',', '2', ']'] = [',', '1', ',', '2', ']']
    ∧ parseNatList [',', '1', ',', '2', ']'] = none := by
  refine ⟨by decide, by decide, by decide, by decide, by decide⟩

/-- C2 amended: the repair removes the first comma of the body exactly
when that comma's index lies in [1, 4]; in particular a listing body
with a stray comma immediately after the opening bracket, [, plus rest,
is repaired to the corresponding well-formed body [ plus rest (hence
parses identically to it), and any body whose first comma is at index 0
or at index at least 5 (typical well-formed listings included) is
returned unchanged. -/
theorem jsonFixer_amended :
    (∀ rest : List Char, jsonFixer ('[' :: ',' :: rest) = '[' :: rest)
    ∧ (∀ body : List Char,
        firstCommaIdx body ≤ 0 ∨ 5 ≤ firstCommaIdx body → jsonFixer body = body) := by
  constructor
  · intro rest
    have hidx : firstCommaIdx ('[' :: ',' :: rest) = 1 := by
      simp [firstCommaIdx, List.findIdx?_cons]
    simp [jsonFixer, hidx]
  · intro body h
    have : ¬ (0 < firstCommaIdx body ∧ firstCommaIdx body < 5) := by omega
    simp [jsonFixer, this]

/-- C2 witness: the amended theorem applied to concrete bodies. -/
theorem jsonFixer_amended_witness :
    jsonFixer ['[', ',', '1', ']'] = ['[', '1', ']']
    ∧ ((firstCommaIdx ['[', '1', '2', '3', '4', ',', '5', ']'] ≤ 0
          ∨ 5 ≤ firstCommaIdx ['[', '1', '2', '3', '4', ',', '5', ']'])
        ∧ jsonFixer ['[', '1', '2', '3', '4', ',', '5', ']']
            = ['[', '1', '2', '3', '4', ',', '5', ']']) :=
  ⟨jsonFixer_amended.1 ['1', ']'],
   Or.inr (by decide),
   jsonFixer_amended.2 ['[', '1', '2', '3', '4', ',', '5', ']'] (Or.inr (by decide))⟩

/-- C9: the code at the failing input.  A get on the on/off trait of a
device whose capability flags do not support it returns without ever
invoking its callback (silently fails to respond), contradicting the
claim, the function's own doc comment, and the error-propagation policy
that the matching set handler does follow. -/
theorem getOnState_unsupported_silent :
    getOnStateCb (Caps.mk false true false false) [] (Except.ok []) = none
    ∧ getOnStateCb (Caps.mk false true false false) [] (Except.error "err") = none
    ∧ setOnStateCb (Caps.mk false true false false) Ctx.user (Except.ok ())
        = Except.error "Accessory does not support on/off" := by
  refine ⟨rfl, rfl, rfl⟩

/-- C8: the push-notification listener responds 404 when the device id
is not in the accessory map, 500 when the id is known but the status
fetch fails (the accessory map, hence every property cache, is left
exactly as it was), and 200 when the refresh succeeds. -/
theorem updateAccessoryHandler_correct :
    ∀ (m : List (String × Cache)) (id : String) (fetch : Except String Cache),
      (mapGet m id = none → updateAccessoryHandler m id fetch = (404, m))
      ∧ (∀ cache e, mapGet m id = some cache → fetch = Except.error e →
            updateAccessoryHandler m id fetch = (500, m))
      ∧ (∀ cache json, mapGet m id = some cache → fetch = Except.ok json →
            updateAccessoryHandler m id fetch
              = (200, mapSet m id (updateCacheFromJSON cache json))) := by
  intro m id fetch
  refine ⟨fun h => ?_, fun cache e hc hf => ?_, fun cache json hc hf => ?_⟩
  · simp [updateAccessoryHandler, h]
  · subst hf; simp [updateAccessoryHandler, hc, refreshCacheResult]
  · subst hf; simp [updateAccessoryHandler, hc, refreshCacheResult]

/-- C8 witness: the three responses at concrete inputs. -/
theorem updateAccessoryHandler_correct_witness :
    updateAccessoryHandler [("1", [("isOn", JVal.b true)])] "2" (Except.ok [])
        = (404, [("1", [("isOn", JVal.b true)])])
    ∧ updateAccessoryHandler [("1", [("isOn", JVal.b true)])] "1" (Except.error "down")
        = (500, [("1", [("isOn", JVal.b true)])])
    ∧ updateAccessoryHandler [("1", [("isOn", JVal.b true)])] "1"
          (Except.ok [("isOn", JVal.b false)])
        = (200, mapSet [("1", [("isOn", JVal.b true)])] "1"
            (updateCacheFromJSON [("isOn", JVal.b true)] [("isOn", JVal.b false)])) :=
  ⟨(updateAccessoryHandler_correct [("1", [("isOn", JVal.b true)])] "2" (Except.ok [])).1
      (by decide),
   (updateAccessoryHandler_correct [("1", [("isOn", JVal.b true)])] "1"
      (Except.error "down")).2.1 [("isOn", JVal.b true)] "down" (by decide) rfl,
   (updateAccessoryHandler_correct [("1", [("isOn", JVal.b true)])] "1"
      (Except.ok [("isOn", JVal.b false)])).2.2 [("isOn", JVal.b true)]
      [("isOn", JVal.b false)] (by decide) rfl⟩

/-- C3 counterexample: the set-then-get round trip at p = 50 yields
200/3 = 66.666..., which is none of the four literal bucket values
{0, 33.33, 66.67, 100} named by the claim (the true middle buckets are
100/3 and 200/3). -/
theorem fanRoundTrip_counterexample :
    fanRoundTrip 50 = 200 / 3
    ∧ fanRoundTrip 50 ≠ 0 ∧ fanRoundTrip 50 ≠ 33.33
    ∧ fanRoundTrip 50 ≠ 66.67 ∧ fanRoundTrip 50 ≠ 100 := by
  refine ⟨?_, ?_, ?_, ?_, ?_⟩ <;>
    norm_num [fanRoundTrip, speedIndexOf, rotationSpeedOf]

/-- C3 amended: setRotationSpeed(p) writes index 3 if p > 66.6, else 2
if p > 33.3, else 1 if p > 0, else 0, and getRotationSpeed reports
index / 3 * 100; the round trip therefore always lands in exactly the
four buckets {0, 100/3, 200/3, 100} (approximately 33.33 and 66.67 for
the middle two) and equals p only when p was already one of those
bucket values. -/
theorem fanRoundTrip_amended (p : ℚ) (_h0 : 0 ≤ p) (_h1 : p ≤ 100) :
    (fanRoundTrip p = 0 ∨ fanRoundTrip p = 100 / 3
      ∨ fanRoundTrip p = 200 / 3 ∨ fanRoundTrip p = 100)
    ∧ (fanRoundTrip p = p →
        (p = 0 ∨ p = 100 / 3 ∨ p = 200 / 3 ∨ p = 100))
    ∧ (66.6 < p → speedIndexOf p = 3)
    ∧ (33.3 < p → p ≤ 66.6 → speedIndexOf p = 2)
    ∧ (0 < p → p ≤ 33.3 → speedIndexOf p = 1)
    ∧ (p ≤ 0 → speedIndexOf p = 0) := by
  have hmem : fanRoundTrip p = 0 ∨ fanRoundTrip p = 100 / 3
      ∨ fanRoundTrip p = 200 / 3 ∨ fanRoundTrip p = 100 := by
    unfold fanRoundTrip rotationSpeedOf speedIndexOf
    split_ifs <;> norm_num
  refine ⟨hmem, fun h => by rw [h] at hmem; exact hmem, fun hp => ?_,
    fun hp hq => ?_, fun hp hq => ?_, fun hp => ?_⟩
  · unfold speedIndexOf
    rw [if_pos hp]
  · unfold speedIndexOf
    rw [if_neg (not_lt.mpr hq), if_pos hp]
  · unfold speedIndexOf
    rw [if_neg (not_lt.mpr (by linarith : p ≤ (66.6 : ℚ))),
        if_neg (not_lt.mpr hq), if_pos hp]
  · unfold speedIndexOf
    rw [if_neg (not_lt.mpr (by linarith : p ≤ (66.6 : ℚ))),
        if_neg (not_lt.mpr (by linarith : p ≤ (33.3 : ℚ))),
        if_neg (not_lt.mpr hp)]

/-- C3 witness: the amended theorem at p = 50 (bucket 200/3). -/
theorem fanRoundTrip_amended_witness :
    (0 : ℚ) ≤ 50 ∧ (50 : ℚ) ≤ 100
    ∧ (fanRoundTrip 50 = 0 ∨ fanRoundTrip 50 = 100 / 3
        ∨ fanRoundTrip 50 = 200 / 3 ∨ fanRoundTrip 50 = 100) :=
  ⟨by norm_num, by norm_num,
   (fanRoundTrip_amended 50 (by norm_num) (by norm_num)).1⟩

/-- C4: with a Fahrenheit-native device (thermostatsInCelsius false)
converting Celsius to the native unit and back, each direction rounding
to one decimal place, reproduces the input to within 0.1; with a
Celsius-native device both conversions are exactly the identity. -/
theorem tempConversion_roundTrip :
    ∀ t : ℚ,
      |indigoTempToCelsius false (celsiusToIndigoTemp false t) - t| ≤ 1 / 10
      ∧ celsiusToIndigoTemp true t = t
      ∧ indigoTempToCelsius true t = t := by
  intro t
  refine ⟨?_, rfl, rfl⟩
  have key : ∀ x : ℚ, ((jsRound x : ℤ) : ℚ) ≤ x + 1 / 2
      ∧ x - 1 / 2 < ((jsRound x : ℤ) : ℚ) := by
    intro x
    unfold jsRound
    refine ⟨Int.floor_le _, ?_⟩
    have := Int.lt_floor_add_one (x + 1 / 2)
    linarith
  obtain ⟨hA1, hA2⟩ := key ((t * 9 / 5 + 32) * 10)
  obtain ⟨hB1, hB2⟩ :=
    key ((((jsRound ((t * 9 / 5 + 32) * 10) : ℤ) : ℚ) / 10 - 32) * 5 / 9 * 10)
  have hgoal : indigoTempToCelsius false (celsiusToIndigoTemp false t)
      = ((jsRound ((((jsRound ((t * 9 / 5 + 32) * 10) : ℤ) : ℚ) / 10 - 32)
            * 5 / 9 * 10) : ℤ) : ℚ) / 10 := rfl
  rw [hgoal, abs_le]
  constructor <;> linarith

/-- C5: setTargetTemperature issues exactly one PUT; in heat-only mode
its query carries only setpointHeat, in cool-only mode only
setpointCool, otherwise both setpoints straddling the converted value
by 2 native degrees when Celsius-native and 5 when Fahrenheit-native;
at 22 degrees Celsius in auto mode on a Fahrenheit device the PUT
carries setpointCool 76.6 and setpointHeat 66.6. -/
theorem setTargetTemperature_correct :
    (∀ (url : String) (st : ThermoState) (c : ℚ),
        (setTargetTemperatureAllReqs url st c).filter isWrite
            = [Req.mk Verb.PUT url (setTargetTemperatureQS st c)]
        ∧ (st.hvacOperationModeIsHeat = true →
            setTargetTemperatureQS st c
              = [("setpointHeat", JVal.n (celsiusToIndigoTemp st.thermostatsInCelsius c))])
        ∧ (st.hvacOperationModeIsHeat = false → st.hvacOperationModeIsCool = true →
            setTargetTemperatureQS st c
              = [("setpointCool", JVal.n (celsiusToIndigoTemp st.thermostatsInCelsius c))])
        ∧ (st.hvacOperationModeIsHeat = false → st.hvacOperationModeIsCool = false →
            setTargetTemperatureQS st c
              = [("setpointCool", JVal.n (celsiusToIndigoTemp st.thermostatsInCelsius c
                    + (if st.thermostatsInCelsius then 2 else 5))),
                 ("setpointHeat", JVal.n (celsiusToIndigoTemp st.thermostatsInCelsius c
                    - (if st.thermostatsInCelsius then 2 else 5)))]))
    ∧ setTargetTemperatureQS (ThermoState.mk false false false) 22
        = [("setpointCool", JVal.n (766 / 10)), ("setpointHeat", JVal.n (666 / 10))] := by
  constructor
  · intro url st c
    refine ⟨?_, fun hh => ?_, fun hh hc => ?_, fun hh hc => ?_⟩
    · rfl
    · simp [setTargetTemperatureQS, hh]
    · simp [setTargetTemperatureQS, hh, hc]
    · simp [setTargetTemperatureQS, hh, hc]
  · norm_num [setTargetTemperatureQS, celsiusToIndigoTemp, jsRound]

/-- C5 witness: the mode cases of the theorem at concrete thermostat
states. -/
theorem setTargetTemperature_correct_witness :
    setTargetTemperatureQS (ThermoState.mk false true false) 22
        = [("setpointHeat", JVal.n (celsiusToIndigoTemp false 22))]
    ∧ setTargetTemperatureQS (ThermoState.mk false false true) 22
        = [("setpointCool", JVal.n (celsiusToIndigoTemp false 22))]
    ∧ (setTargetTemperatureAllReqs "/devices/1.json" (ThermoState.mk false false false) 22).filter
          isWrite
        = [Req.mk Verb.PUT "/devices/1.json"
            (setTargetTemperatureQS (ThermoState.mk false false false) 22)] :=
  ⟨(setTargetTemperature_correct.1 "/devices/1.json" (ThermoState.mk false true false) 22).2.1 rfl,
   (setTargetTemperature_correct.1 "/devices/1.json" (ThermoState.mk false false true) 22).2.2.1
      rfl rfl,
   (setTargetTemperature_correct.1 "/devices/1.json" (ThermoState.mk false false false) 22).1⟩

/-- Sorting a constant name list leaves it unchanged. -/
theorem jsSortNames_replicate (n : Nat) (x : String) :
    jsSortNames (List.replicate n x) = List.replicate n x :=
  List.Sorted.insertionSort_eq (List.pairwise_replicate.mpr (Or.inr (le_refl x)))

/-- The name-sorted form of 149 b-names followed by one a-name. -/
theorem jsSortNames_skewed :
    jsSortNames (List.replicate 149 "b" ++ ["a"]) = "a" :: List.replicate 149 "b" := by
  have hsorted : List.Sorted (fun a b : String => a ≤ b)
      ("a" :: List.replicate 149 "b") := by
    rw [List.sorted_cons]
    constructor
    · intro b hb
      rw [List.eq_of_mem_replicate hb]
      exact String.le_iff_toList_le.mpr (by decide)
    · exact List.pairwise_replicate.mpr (Or.inr (le_refl "b"))
  unfold jsSortNames
  exact List.eq_of_perm_of_sorted
    ((List.perm_insertionSort _ _).trans List.perm_append_comm)
    (List.sorted_insertionSort _ _) hsorted

/-- C6 counterexample: with 150 discovered accessories, 149 named "b"
followed by one named "a", the code truncates to the first 99 in
discovery order and then sorts (returning 99 "b"s), which is not the
first 99 of the name-sorted full list (which starts with "a"). -/
theorem accessories_truncation_counterexample :
    (accessoriesCallback (List.replicate 149 "b" ++ ["a"])).accessories
      ≠ (jsSortNames (List.replicate 149 "b" ++ ["a"])).take 99 := by
  have hcode : (accessoriesCallback (List.replicate 149 "b" ++ ["a"])).accessories
      = List.replicate 99 "b" := by
    have hlen : (List.replicate 149 "b" ++ ["a"]).length = 150 := by simp
    simp only [accessoriesCallback, hlen]
    norm_num
    rw [List.take_append_eq_append_take, List.take_replicate]
    norm_num
    exact jsSortNames_replicate 99 "b"
  have hspec : (jsSortNames (List.replicate 149 "b" ++ ["a"])).take 99
      = "a" :: List.replicate 98 "b" := by
    rw [jsSortNames_skewed, show (99 : Nat) = 98 + 1 from rfl, List.take_succ_cons,
        List.take_replicate]
    norm_num
  rw [hcode, hspec, show (99 : Nat) = 98 + 1 from rfl, List.replicate_succ]
  intro h
  simp at h

/-- C6 amended: the accessories callback returns the name-sorted
permutation of the first-99-in-discovery-order truncation of the
discovered list (the bound is enforced before sorting, not after), and
the prominent warning block runs exactly once when more than 99
accessories were discovered and never otherwise. -/
theorem accessories_sorted_truncated :
    ∀ found : List String,
      List.Sorted (fun a b => a ≤ b) (accessoriesCallback found).accessories
      ∧ List.Perm (accessoriesCallback found).accessories
          (if found.length > 99 then found.take 99 else found)
      ∧ (accessoriesCallback found).warnings
          = (if found.length > 99 then 1 else 0) := by
  intro found
  by_cases h : found.length > 99
  · simp only [accessoriesCallback, if_pos h]
    exact ⟨List.sorted_insertionSort _ _, List.perm_insertionSort _ _, trivial⟩
  · simp only [accessoriesCallback, if_neg h]
    exact ⟨List.sorted_insertionSort _ _, List.perm_insertionSort _ _, trivial⟩

/-- Every setValue call an update_KEY mirror function makes carries the
refresh context and reaches only set handlers that then issue no
request. -/
theorem updateFnEvents_safe (d : Device) (vr : Variant) (p : String) (v : JVal) :
    (updateFnEvents vr d.caps p v).all
      (fun e => e.ctx == Ctx.refreshCtx
        && (setHandlerReqs d vr e.char e.value e.ctx).isEmpty) = true := by
  cases vr <;> simp only [updateFnEvents] <;> (try split_ifs) <;>
    simp [setHandlerReqs, setOnStateReqs, setLockTargetStateReqs, setTargetPositionReqs,
          setTargetDoorStateReqs, setBrightnessReqs]

/-- Folding handler requests over events that each issue none yields no
requests. -/
theorem foldr_reqs_eq_nil (d : Device) (vr : Variant) (events : List SetValueEvent)
    (h : ∀ e ∈ events, setHandlerReqs d vr e.char e.value e.ctx = []) :
    events.foldr (fun e acc => setHandlerReqs d vr e.char e.value e.ctx ++ acc) [] = [] := by
  induction events with
  | nil => rfl
  | cons e rest ih =>
      simp only [List.foldr_cons]
      rw [h e (by simp), ih (fun x hx => h x (by simp [hx]))]
      rfl

/-- Every setValue event a refresh delivers carries the refresh context
and triggers a set handler (if any) that issues no request. -/
theorem refreshEvents_safe (d : Device) (vr : Variant) :
    ∀ (json cache : Cache), ∀ e ∈ refreshEvents vr d.caps cache json,
      e.ctx = Ctx.refreshCtx ∧ setHandlerReqs d vr e.char e.value e.ctx = [] := by
  intro json
  induction json with
  | nil =>
      intro cache e he
      simp [refreshEvents, refreshLoop] at he
  | cons pv rest ih =>
      intro cache e he
      obtain ⟨p, v⟩ := pv
      by_cases hc : p ≠ "name" ∧ propChanged cache p v = true
      · have hstep : refreshEvents vr d.caps cache ((p, v) :: rest)
            = updateFnEvents vr d.caps p v
              ++ refreshEvents vr d.caps (setProp cache p v) rest := by
          simp only [refreshEvents, refreshLoop]
          rw [if_pos hc]
        rw [hstep, List.mem_append] at he
        rcases he with he | he
        · have hall := updateFnEvents_safe d vr p v
          rw [List.all_eq_true] at hall
          have hthis := hall e he
          simp only [Bool.and_eq_true, beq_iff_eq, List.isEmpty_iff] at hthis
          exact hthis
        · exact ih (setProp cache p v) e he
      · have hstep : refreshEvents vr d.caps cache ((p, v) :: rest)
            = refreshEvents vr d.caps cache rest := by
          simp only [refreshEvents, refreshLoop]
          rw [if_neg hc]
        rw [hstep] at he
        exact ih cache e he

/-- C1: a push-notification refresh never issues an outbound request
for any accessory variant, cache and fetched response: every mirror
setValue it delivers carries the echo-suppression (refresh) context and
the set handlers those reach return without calling updateStatus or
indigoRequest; in particular a switch refresh whose cached isOn flips
from false to true makes exactly one mirror-function invocation,
delivering one echo-suppressed setValue, and issues no request. -/
theorem refresh_no_outbound :
    (∀ (d : Device) (vr : Variant) (cache json : Cache),
        refreshOutbound d vr cache json = []
        ∧ (refreshEvents vr d.caps cache json).all
            (fun e => e.ctx == Ctx.refreshCtx) = true)
    ∧ refreshMirrorCalls Variant.vSwitch (Caps.mk true false false false)
        [("isOn", JVal.b false)] [("isOn", JVal.b true)] = ["isOn"]
    ∧ refreshEvents Variant.vSwitch (Caps.mk true false false false)
        [("isOn", JVal.b false)] [("isOn", JVal.b true)]
        = [SetValueEvent.mk HK.hkOn (JVal.b true) Ctx.refreshCtx]
    ∧ refreshOutbound
        (Device.mk "/devices/1.json" (Caps.mk true false false false) false false false)
        Variant.vSwitch [("isOn", JVal.b false)] [("isOn", JVal.b true)] = [] := by
  refine ⟨fun d vr cache json => ⟨?_, ?_⟩, by decide, by decide, by decide⟩
  · exact foldr_reqs_eq_nil d vr _
      (fun e he => (refreshEvents_safe d vr json cache e he).2)
  · rw [List.all_eq_true]
    intro e he
    simp only [beq_iff_eq]
    exact (refreshEvents_safe d vr json cache e he).1

/-- In every reachable state of the concurrency-1 queue at most one
request is in flight. -/
theorem qreach_running_length (s : QState) (h : QReach 1 s) : s.running.length ≤ 1 := by
  induction h with
  | refl => simp [QState.init]
  | tail hab hbc ih =>
      cases hbc with
      | push r p run d => exact ih
      | start r p run d hlt =>
          simp only [List.length_append, List.length_cons, List.length_nil]
          omega
      | finish r p pre post d =>
          simp only [List.length_append, List.length_cons] at ih ⊢
          omega

/-- Any step from a reachable state of the concurrency-1 queue only
extends the submission-ordered view at its tail (no reordering). -/
theorem qstep_order_extends (s s2 : QState) (hs : QReach 1 s) (h : QStep 1 s s2) :
    ∃ ext, qOrder s2 = qOrder s ++ ext := by
  cases h with
  | push r p run d =>
      exact ⟨[r], by simp [qOrder, List.append_assoc]⟩
  | start r p run d hlt =>
      exact ⟨[], by simp [qOrder]⟩
  | finish r p pre post d =>
      have hlen := qreach_running_length _ hs
      simp only [List.length_append, List.length_cons] at hlen
      have hpre : pre = [] := List.length_eq_zero.mp (by omega)
      have hpost : post = [] := List.length_eq_zero.mp (by omega)
      subst hpre; subst hpost
      exact ⟨[], by simp [qOrder]⟩

/-- C10: the shared request queue (async.queue with its concurrency
argument omitted, hence the default limit of one) through which every
outbound request is submitted never has more than one request in
flight, and every transition preserves the submission order, only
appending newly pushed requests at the tail: requests are started and
completed strictly one at a time in FIFO submission order. -/
theorem requestQueue_fifo :
    (∀ s, QReach requestQueueConcurrency s → s.running.length ≤ 1)
    ∧ (∀ s s2, QReach requestQueueConcurrency s →
        QStep requestQueueConcurrency s s2 → ∃ ext, qOrder s2 = qOrder s ++ ext) :=
  ⟨fun s h => qreach_running_length s h,
   fun s s2 hs h => qstep_order_extends s s2 hs h⟩

/-- C10 witness: the theorem at the empty queue and a concrete push
step. -/
theorem requestQueue_fifo_witness :
    QState.init.running.length ≤ 1
    ∧ ∃ ext, qOrder (QState.mk [Req.mk Verb.GET "/devices.json/" []] [] [])
        = qOrder QState.init ++ ext :=
  ⟨requestQueue_fifo.1 QState.init Relation.ReflTransGen.refl,
   requestQueue_fifo.2 QState.init (QState.mk [Req.mk Verb.GET "/devices.json/" []] [] [])
     Relation.ReflTransGen.refl
     (QStep.push (Req.mk Verb.GET "/devices.json/" []) [] [] [])⟩

end Indigo
